import Mathlib

/-!
Shallow embedding of the backup orchestration core of
josh/obsidian-restic-backup (src/main.js), together with proofs about it.

The JavaScript source is embedded as executable Lean definitions:

* JavaScript string helpers (trim, split, split with a limit) are modelled
  over lists of characters (`jsTrim`, `jsSplit`).
* JSON.parse is modelled by `jsonParse`, a strict JSON parser producing a
  `Json` value, with JavaScript object semantics for duplicate keys
  (last assignment wins, first insertion position kept).
* JavaScript property access (`msg.message_type`) is modelled by
  `readMember`; accessing a member of `null` throws a TypeError, while
  accessing a missing member of any other value yields `undefined`
  (modelled as `none`).
* Asynchronous subprocess execution is modelled by passing the subprocess
  outcome (or an outcome-producing oracle) as an explicit argument.
-/

namespace ResticBackup

/-- Characters treated as whitespace by JavaScript's String.prototype.trim
(restricted to the ASCII range, which is all this program ever meets). -/
def isJsWs (c : Char) : Bool :=
  c = ' ' || c = '\t' || c = '\n' || c = '\r' || c = Char.ofNat 11 || c = Char.ofNat 12

/-- Trim of a character list: drop leading and trailing whitespace. -/
def jsTrimList (s : List Char) : List Char :=
  ((s.dropWhile isJsWs).reverse.dropWhile isJsWs).reverse

/-- Model of JavaScript String.prototype.trim. -/
def jsTrim (s : String) : String :=
  ⟨jsTrimList s.data⟩

/-- Split a character list on a separator character.  Always returns at
least one (possibly empty) piece, like JavaScript String.prototype.split
with a one-character separator. -/
def splitOnChar (sep : Char) (s : List Char) : List (List Char) :=
  s.foldr
    (fun c acc =>
      if c = sep then [] :: acc
      else
        match acc with
        | a :: rest => (c :: a) :: rest
        | [] => [[c]])
    [[]]

/-- Model of JavaScript String.prototype.split with a one-character
separator and no limit. -/
def jsSplit (sep : Char) (s : String) : List String :=
  (splitOnChar sep s.data).map (fun l => ⟨l⟩)

/-- JSON values as produced by JSON.parse.  Numbers keep their literal
text: no claim in this development depends on numeric evaluation, only on
which lines parse and which fields a parsed object carries. -/
inductive Json where
  | null : Json
  | bool (b : Bool) : Json
  | num (lit : String) : Json
  | str (s : String) : Json
  | arr (elems : List Json) : Json
  | obj (members : List (String × Json)) : Json

/-- JSON whitespace skipping (space, tab, newline, carriage return). -/
def skipWs : List Char → List Char
  | c :: cs =>
    if c = ' ' || c = '\t' || c = '\n' || c = '\r' then skipWs cs else c :: cs
  | [] => []

/-- Value of one hexadecimal digit. -/
def hexVal (c : Char) : Option Nat :=
  if '0' ≤ c ∧ c ≤ '9' then some (c.toNat - 48)
  else if 'a' ≤ c ∧ c ≤ 'f' then some (c.toNat - 87)
  else if 'A' ≤ c ∧ c ≤ 'F' then some (c.toNat - 55)
  else none

/-- Body of a JSON string literal, after the opening quote.  Returns the
decoded characters and the rest of the input after the closing quote. -/
def parseStringBody : List Char → Option (List Char × List Char)
  | [] => none
  | '"' :: rest => some ([], rest)
  | '\\' :: rest =>
    match rest with
    | '"' :: r => (parseStringBody r).map (fun p => ('"' :: p.1, p.2))
    | '\\' :: r => (parseStringBody r).map (fun p => ('\\' :: p.1, p.2))
    | '/' :: r => (parseStringBody r).map (fun p => ('/' :: p.1, p.2))
    | 'b' :: r => (parseStringBody r).map (fun p => (Char.ofNat 8 :: p.1, p.2))
    | 'f' :: r => (parseStringBody r).map (fun p => (Char.ofNat 12 :: p.1, p.2))
    | 'n' :: r => (parseStringBody r).map (fun p => ('\n' :: p.1, p.2))
    | 'r' :: r => (parseStringBody r).map (fun p => ('\r' :: p.1, p.2))
    | 't' :: r => (parseStringBody r).map (fun p => ('\t' :: p.1, p.2))
    | 'u' :: a :: b :: c :: d :: r =>
      match hexVal a, hexVal b, hexVal c, hexVal d with
      | some va, some vb, some vc, some vd =>
        (parseStringBody r).map
          (fun p => (Char.ofNat (va * 4096 + vb * 256 + vc * 16 + vd) :: p.1, p.2))
      | _, _, _, _ => none
    | _ => none
  | c :: rest =>
    if c.toNat < 32 then none
    else (parseStringBody rest).map (fun p => (c :: p.1, p.2))

/-- Longest prefix of decimal digits. -/
def spanDigits : List Char → List Char × List Char
  | c :: cs =>
    if c.isDigit then
      let p := spanDigits cs
      (c :: p.1, p.2)
    else ([], c :: cs)
  | [] => ([], [])

/-- Integer part of a JSON number: 0, or a nonzero digit followed by
digits (leading zeros are a parse error, as in strict JSON). -/
def parseIntPart : List Char → Option (List Char × List Char)
  | '0' :: r => some (['0'], r)
  | c :: r =>
    if c.isDigit then
      let p := spanDigits r
      some (c :: p.1, p.2)
    else none
  | [] => none

/-- Optional fraction part of a JSON number. -/
def parseFrac (s : List Char) : Option (List Char × List Char) :=
  match s with
  | '.' :: r =>
    match spanDigits r with
    | ([], _) => none
    | (ds, rest) => some ('.' :: ds, rest)
  | _ => some ([], s)

/-- Optional exponent part of a JSON number. -/
def parseExp (s : List Char) : Option (List Char × List Char) :=
  match s with
  | c :: r =>
    if c = 'e' || c = 'E' then
      let sr :=
        match r with
        | '+' :: rr => (['+'], rr)
        | '-' :: rr => (['-'], rr)
        | _ => (([] : List Char), r)
      match spanDigits sr.2 with
      | ([], _) => none
      | (ds, rest) => some (c :: (sr.1 ++ ds), rest)
    else some ([], s)
  | [] => some ([], [])

/-- A JSON number literal: optional minus, integer part, optional
fraction, optional exponent.  Returns the literal characters. -/
def parseNumber (s : List Char) : Option (List Char × List Char) :=
  let sgn :=
    match s with
    | '-' :: r => ((['-'] : List Char), r)
    | _ => (([] : List Char), s)
  match parseIntPart sgn.2 with
  | none => none
  | some (ip, s2) =>
    match parseFrac s2 with
    | none => none
    | some (fp, s3) =>
      match parseExp s3 with
      | none => none
      | some (ep, s4) => some (sgn.1 ++ ip ++ fp ++ ep, s4)

/-- Insert a key-value pair with JavaScript object-assignment semantics:
an existing key keeps its position and gets the new value, a new key is
appended at the end. -/
def objInsert (kvs : List (String × Json)) (k : String) (v : Json) :
    List (String × Json) :=
  match kvs with
  | [] => [(k, v)]
  | (k0, v0) :: rest =>
    if k0 = k then (k0, v) :: rest else (k0, v0) :: objInsert rest k v

/-- Fold a parsed member list into an object, assigning keys in order. -/
def dedupePairs (pairs : List (String × Json)) : List (String × Json) :=
  pairs.foldl (fun acc p => objInsert acc p.1 p.2) []

mutual

/-- Parse one JSON value (skipping leading whitespace).  The fuel bounds
the nesting depth; jsonParse supplies more fuel than any input can use. -/
def parseValue (fuel : Nat) (s : List Char) : Option (Json × List Char) :=
  match fuel with
  | 0 => none
  | fuel + 1 =>
    match skipWs s with
    | '{' :: r =>
      match skipWs r with
      | '}' :: r2 => some (.obj [], r2)
      | s2 => (parseMembers fuel s2).map (fun p => (Json.obj (dedupePairs p.1), p.2))
    | '[' :: r =>
      match skipWs r with
      | ']' :: r2 => some (.arr [], r2)
      | s2 => (parseElements fuel s2).map (fun p => (Json.arr p.1, p.2))
    | '"' :: r => (parseStringBody r).map (fun p => (Json.str ⟨p.1⟩, p.2))
    | 't' :: 'r' :: 'u' :: 'e' :: r => some (.bool true, r)
    | 'f' :: 'a' :: 'l' :: 's' :: 'e' :: r => some (.bool false, r)
    | 'n' :: 'u' :: 'l' :: 'l' :: r => some (.null, r)
    | rest => (parseNumber rest).map (fun p => (Json.num ⟨p.1⟩, p.2))

/-- Parse the members of a JSON object, positioned at the first key. -/
def parseMembers (fuel : Nat) (s : List Char) :
    Option (List (String × Json) × List Char) :=
  match fuel with
  | 0 => none
  | fuel + 1 =>
    match s with
    | '"' :: r =>
      match parseStringBody r with
      | none => none
      | some (key, r2) =>
        match skipWs r2 with
        | ':' :: r3 =>
          match parseValue fuel r3 with
          | none => none
          | some (v, r4) =>
            match skipWs r4 with
            | ',' :: r5 =>
              (parseMembers fuel (skipWs r5)).map
                (fun p => ((⟨key⟩, v) :: p.1, p.2))
            | '}' :: r5 => some ([(⟨key⟩, v)], r5)
            | _ => none
        | _ => none
    | _ => none

/-- Parse the elements of a JSON array, positioned at the first element. -/
def parseElements (fuel : Nat) (s : List Char) :
    Option (List Json × List Char) :=
  match fuel with
  | 0 => none
  | fuel + 1 =>
    match parseValue fuel s with
    | none => none
    | some (v, r) =>
      match skipWs r with
      | ',' :: r2 => (parseElements fuel r2).map (fun p => (v :: p.1, p.2))
      | ']' :: r2 => some ([v], r2)
      | _ => none

end

/-- Model of JSON.parse: a strict JSON document with nothing but
whitespace after it, or a parse failure (`none`, standing for a thrown
SyntaxError). -/
def jsonParse (s : String) : Option Json :=
  match parseValue (2 * s.length + 4) s.data with
  | some (v, rest) => if skipWs rest = [] then some v else none
  | none => none

/-- Look up a member of a parsed object (`none` stands for undefined). -/
def getField (kvs : List (String × Json)) (k : String) : Option Json :=
  kvs.foldl (fun acc p => if p.1 = k then some p.2 else acc) none

/-- Errors the embedded JavaScript can produce.  The constructors written
by the source are syntaxError (JSON.parse), typeError (member access on
null), noSummary, configError and assertError; busyError is the spec
vocabulary for a rejected overlapping run and is never constructed by the
embedded code. -/
inductive JsError where
  | syntaxError : JsError
  | typeError (msg : String) : JsError
  | noSummary : JsError
  | configError (msg : String) : JsError
  | assertError (msg : String) : JsError
  | execFailed (msg : String) : JsError
  | busyError : JsError
deriving DecidableEq

/-- JavaScript member access msg.message_type: reading a member of null
throws a TypeError; any non-object value yields undefined (`none`); an
object yields its field, or undefined when absent. -/
def readMember (v : Json) (k : String) : Except JsError (Option Json) :=
  match v with
  | .null => .error (.typeError ("Cannot read properties of null (reading " ++ k ++ ")"))
  | .obj kvs => .ok (getField kvs k)
  | _ => .ok none

/-- JavaScript strict equality of a member-access result with the string
literal "summary": only a string value compares equal. -/
def isSummaryTag : Option Json → Bool
  | some (.str s) => s = "summary"
  | _ => false

/-- Body of the try block run for one line of restic output: JSON.parse
the line, then test msg.message_type === "summary".  Returns the line's
record when it is the summary, `none` when it is well-formed but not the
summary, and an error for anything the try block would throw. -/
def tryLine (line : String) : Except JsError (Option Json) :=
  match jsonParse line with
  | none => .error .syntaxError
  | some msg =>
    match readMember msg "message_type" with
    | .error e => .error e
    | .ok v => .ok (if isSummaryTag v then some msg else none)

/-- Loop of parseResticSummary: scan the lines in order, catching every
per-line error (continue), and return the first summary record; throw
noSummary when the lines run out. -/
def scanLines : List String → Except JsError Json
  | [] => .error .noSummary
  | l :: ls =>
    match tryLine l with
    | .ok (some m) => .ok m
    | _ => scanLines ls

/-- Embedding of parseResticSummary (src/main.js lines 342-355):
stdout.trim().split on newlines, then scan. -/
def parseResticSummary (stdout : String) : Except JsError Json :=
  scanLines (jsSplit '\n' (jsTrim stdout))

/-- The summary record one line contributes, if any: `some` exactly when
the line parses as JSON and its message_type member is the string
"summary"; both per-line failures and non-summary lines give `none`. -/
def summaryOfLine (line : String) : Option Json :=
  match tryLine line with
  | .ok (some m) => some m
  | _ => none

/-- The plugin settings consumed by resticBackup (DEFAULT_SETTINGS shape,
src/main.js lines 8-16). -/
structure Settings where
  enabled : Bool
  resticBinPath : String
  resticRepository : String
  resticPasswordFile : String
  resticPasswordCommand : String
  resticTags : String
  backupInterval : Int

/-- An environment object: later entries override earlier ones, as with
JavaScript property assignment and object spread. -/
abbrev EnvMap := List (String × String)

/-- Set a variable (JavaScript property assignment, modelled by appending;
lookups read the last entry). -/
def envSet (e : EnvMap) (k v : String) : EnvMap :=
  e ++ [(k, v)]

/-- Read a variable: the value of the last entry with the given name. -/
def envGet (e : EnvMap) (k : String) : Option String :=
  e.foldl (fun acc p => if p.1 = k then some p.2 else acc) none

/-- Environment overlay built by resticBackup (src/main.js lines 161-171):
spread the ambient process environment, always set RESTIC_REPOSITORY, and
set each password variable exactly when its setting is non-empty. -/
def buildBackupEnv (ambient : EnvMap) (s : Settings) : EnvMap :=
  let env := envSet ambient "RESTIC_REPOSITORY" s.resticRepository
  let env :=
    if s.resticPasswordFile ≠ "" then
      envSet env "RESTIC_PASSWORD_FILE" s.resticPasswordFile
    else env
  if s.resticPasswordCommand ≠ "" then
    envSet env "RESTIC_PASSWORD_COMMAND" s.resticPasswordCommand
  else env

/-- The pairs pushed by the tag loop: args.push("--tag", tag) per tag. -/
def tagArgs : List String → List String
  | [] => []
  | t :: ts => "--tag" :: t :: tagArgs ts

/-- Argument list built by resticBackup (src/main.js lines 178-195): the
base arguments, then, when the tag string is non-empty, one "--tag" value
pair per comma-separated element after trimming each element.  The source
guards the loop with tags.length > 0, which is kept here verbatim. -/
def backupArgs (s : Settings) (basePath : String) : List String :=
  let args := ["backup", basePath, "--json", "--skip-if-unchanged"]
  if s.resticTags ≠ "" then
    let tags := (jsSplit ',' s.resticTags).map jsTrim
    if tags.length > 0 then args ++ tagArgs tags else args
  else args

/-- The subprocess invocation resticBackup hands to execFile. -/
structure Invocation where
  binPath : String
  args : List String
  env : EnvMap

/-- Embedding of resticBackup up to the subprocess call (src/main.js lines
153-199): throw when the repository setting is empty (JavaScript
falsiness; the only falsy string is the empty one), otherwise build the
environment overlay and argument list. -/
def resticBackupInvocation (s : Settings) (basePath : String) (ambient : EnvMap) :
    Except JsError Invocation :=
  if s.resticRepository = "" then
    .error (.configError "Restic repository not configured")
  else
    .ok { binPath := s.resticBinPath
          args := backupArgs s basePath
          env := buildBackupEnv ambient s }

/-- Embedding of the whole of resticBackup (src/main.js lines 153-201).
The subprocess is modelled by the oracle `exec`, mapping the built
invocation to the captured stdout or a thrown execution error. -/
def resticBackup (s : Settings) (basePath : String) (ambient : EnvMap)
    (exec : Invocation → Except JsError String) : Except JsError Json :=
  match resticBackupInvocation s basePath ambient with
  | .error e => .error e
  | .ok inv =>
    match exec inv with
    | .error e => .error e
    | .ok stdout => parseResticSummary stdout

/-- A shell environment record as built by getShellEnv: JavaScript stores
`undefined` (here `none`) as the value of a key taken from a line with no
"=" in it. -/
abbrev ShellEnv := List (String × Option String)

/-- Parsing loop of getShellEnv (src/main.js lines 386-391): for each
line, line.split("=", 2) — a JavaScript split with a limit keeps only the
first two pieces — destructured as key and value, and the pair recorded
whenever the key is truthy (non-empty). -/
def parseShellEnv (stdout : String) : ShellEnv :=
  (jsSplit '\n' stdout).foldl
    (fun env line =>
      let parts := (jsSplit '=' line).take 2
      let key := parts.headD ""
      let value := parts[1]?
      if key = "" then env else env ++ [(key, value)])
    []

/-- Embedding of getShellEnv (src/main.js lines 379-392).  The SHELL
variable is read from the ambient environment; the assert throws when it
is unset or empty (falsy).  The login-shell subprocess is the oracle
`exec`; its captured stdout is parsed by parseShellEnv. -/
def getShellEnv (shellVar : Option String)
    (exec : String → List String → Except JsError String) :
    Except JsError ShellEnv :=
  match shellVar with
  | none => .error (.assertError "SHELL environment variable is set")
  | some shell =>
    if shell = "" then .error (.assertError "SHELL environment variable is set")
    else
      match exec shell ["-l", "-c", "env"] with
      | .error e => .error e
      | .ok stdout => .ok (parseShellEnv stdout)

/-- Embedding of detectRestic (src/main.js lines 362-372).  The first
argument is the outcome of the `await getShellEnv()` call, which the
source performs outside its try block; the second is the oracle for the
execFile("which", ["restic"]) call, the only statement the try block
wraps.  A caught lookup failure becomes null, as does a lookup whose
trimmed output is empty. -/
def detectRestic (shellEnvResult : Except JsError ShellEnv)
    (whichRestic : ShellEnv → Except JsError String) :
    Except JsError (Option String) :=
  match shellEnvResult with
  | .error e => .error e
  | .ok env =>
    match whichRestic env with
    | .error _ => .ok none
    | .ok stdout =>
      let result := jsTrim stdout
      if result = "" then .ok none else .ok (some result)

/-- Number of backup subprocesses spawned and not yet exited. -/
structure RunState where
  inFlight : Nat
deriving DecidableEq

/-- Outcome of one trigger of resticBackup, up to the spawn. -/
inductive TriggerOutcome where
  | failed (e : JsError) : TriggerOutcome
  | spawned : TriggerOutcome
deriving DecidableEq

/-- Control flow of one trigger of resticBackup up to the execFile call
(src/main.js lines 153-199), as a step on the in-flight subprocess count:
the source consults no run state of any kind before spawning, so a trigger
with a configured repository always spawns, whatever is already in
flight. -/
def resticBackupTriggerStep (s : Settings) (st : RunState) :
    TriggerOutcome × RunState :=
  if s.resticRepository = "" then
    (.failed (.configError "Restic repository not configured"), st)
  else
    (.spawned, ⟨st.inFlight + 1⟩)

/-- A subprocess exit, resolving the awaited execFile promise. -/
def subprocessExit (st : RunState) : RunState :=
  ⟨st.inFlight - 1⟩

/-! ## Helper lemmas -/

/-- One step of the scan loop, phrased through summaryOfLine. -/
theorem scanLines_cons_eq (l : String) (ls : List String) :
    scanLines (l :: ls) =
      match summaryOfLine l with
      | some m => .ok m
      | none => scanLines ls := by
  unfold summaryOfLine
  cases h : tryLine l with
  | ok v =>
    cases v with
    | some m => simp [scanLines, h]
    | none => simp [scanLines, h]
  | error e => simp [scanLines, h]

/-- Lines contributing no summary are skipped by the scan loop. -/
theorem scanLines_skip_all_none (pre ls : List String)
    (h : pre.all (fun l => (summaryOfLine l).isNone) = true) :
    scanLines (pre ++ ls) = scanLines ls := by
  induction pre with
  | nil => rfl
  | cons p rest ih =>
    simp only [List.all_cons, Bool.and_eq_true] at h
    rw [List.cons_append, scanLines_cons_eq]
    have hnone : summaryOfLine p = none := Option.isNone_iff_eq_none.mp h.1
    rw [hnone]
    exact ih h.2

/-- The scan loop returns a record or the no-summary error, nothing else. -/
theorem scanLines_total (ls : List String) :
    (∃ m, scanLines ls = .ok m) ∨ scanLines ls = .error .noSummary := by
  induction ls with
  | nil => exact Or.inr rfl
  | cons l rest ih =>
    rw [scanLines_cons_eq]
    cases h : summaryOfLine l with
    | some m => exact Or.inl ⟨m, rfl⟩
    | none => exact ih

/-- The scan loop fails when every line contributes no summary. -/
theorem scanLines_all_none (ls : List String)
    (h : ls.all (fun l => (summaryOfLine l).isNone) = true) :
    scanLines ls = .error .noSummary := by
  have := scanLines_skip_all_none ls [] h
  simpa using this

/-- Reading a variable through one appended assignment. -/
theorem envGet_append (e : EnvMap) (k v q : String) :
    envGet (e ++ [(k, v)]) q = if q = k then some v else envGet e q := by
  unfold envGet
  rw [List.foldl_append]
  rcases eq_or_ne q k with h | h
  · subst h
    simp
  · simp [h, Ne.symm h]

/-- A character-list split always has at least one piece. -/
theorem splitOnChar_ne_nil (sep : Char) (l : List Char) :
    splitOnChar sep l ≠ [] := by
  induction l with
  | nil => simp [splitOnChar]
  | cons c cs ih =>
    unfold splitOnChar at *
    simp only [List.foldr_cons]
    by_cases h : c = sep
    · simp [h]
    · simp only [h, if_false]
      cases hcs : cs.foldr _ [[]] with
      | nil => simp
      | cons a rest => simp

/-- A JavaScript split always has at least one piece. -/
theorem jsSplit_length_pos (sep : Char) (s : String) :
    0 < (jsSplit sep s).length := by
  unfold jsSplit
  rw [List.length_map]
  exact List.length_pos.mpr (splitOnChar_ne_nil sep s.data)

/-! ## Claims -/

/-- C1: with an empty repository setting, resticBackup fails with the
configuration error "Restic repository not configured", and it does so
for every subprocess oracle — the result does not depend on `exec`, so no
subprocess is spawned and no argument-list or environment effect precedes
the error. -/
theorem resticBackup_empty_repository_config_error
    (s : Settings) (basePath : String) (ambient : EnvMap)
    (exec : Invocation → Except JsError String)
    (h : s.resticRepository = "") :
    resticBackup s basePath ambient exec =
      .error (.configError "Restic repository not configured") := by
  unfold resticBackup resticBackupInvocation
  rw [if_pos h]

/-- Witness for C1 at a concrete all-default configuration. -/
theorem resticBackup_empty_repository_config_error_witness :
    resticBackup
        { enabled := false, resticBinPath := "", resticRepository := "",
          resticPasswordFile := "", resticPasswordCommand := "",
          resticTags := "", backupInterval := 3600 }
        "/vault" [] (fun _ => .ok "") =
      .error (.configError "Restic repository not configured") :=
  resticBackup_empty_repository_config_error _ _ _ _ rfl

/-- C2 (code bug): resticBackup consults no run state before spawning.
With a configured repository, a second trigger arriving while one
subprocess is still in flight spawns a second subprocess (the in-flight
count goes from 1 to 2), and no trigger ever fails with the BusyError the
spec requires. -/
theorem resticBackup_second_trigger_spawns :
    resticBackupTriggerStep
        { enabled := true, resticBinPath := "/opt/homebrew/bin/restic",
          resticRepository := "/tmp/restic-repo", resticPasswordFile := "",
          resticPasswordCommand := "", resticTags := "",
          backupInterval := 3600 }
        ⟨1⟩ =
      (.spawned, ⟨2⟩) ∧
    ∀ (s : Settings) (st : RunState),
      (resticBackupTriggerStep s st).1 ≠ .failed .busyError := by
  refine ⟨rfl, fun s st => ?_⟩
  unfold resticBackupTriggerStep
  by_cases h : s.resticRepository = ""
  · rw [if_pos h]
    simp
  · rw [if_neg h]
    simp

/-- C3: when no line of the output contributes a summary record, the
parser fails with the no-summary error. -/
theorem parseResticSummary_no_summary_error (stdout : String)
    (h : (jsSplit '\n' (jsTrim stdout)).all
        (fun l => (summaryOfLine l).isNone) = true) :
    parseResticSummary stdout = .error .noSummary :=
  scanLines_all_none _ h

/-- Witness for C3 at the empty input. -/
theorem parseResticSummary_no_summary_error_witness :
    parseResticSummary "" = .error .noSummary :=
  parseResticSummary_no_summary_error "" (by rfl)

/-- C4: the parser scans lines in order; every leading line that is
malformed or not a summary is skipped silently, the first summary line's
record is returned, and trailing lines are never looked at, so
surrounding noise cannot affect the returned record. -/
theorem parseResticSummary_first_summary (stdout : String)
    (pre : List String) (line : String) (post : List String) (m : Json)
    (hsplit : jsSplit '\n' (jsTrim stdout) = pre ++ line :: post)
    (hpre : pre.all (fun l => (summaryOfLine l).isNone) = true)
    (hline : summaryOfLine line = some m) :
    parseResticSummary stdout = .ok m := by
  unfold parseResticSummary
  rw [hsplit, scanLines_skip_all_none pre (line :: post) hpre,
    scanLines_cons_eq, hline]

set_option maxRecDepth 16384 in
/-- Witness for C4 at the specification's example: a noise line and a
status line before the summary line, a trailing noise line after it. -/
theorem parseResticSummary_first_summary_witness :
    parseResticSummary
        ("noise\n\x7b\"message_type\":\"status\"\x7d\n\x7b\"message_type\":\"summary\",\"files_new\":3,\"files_changed\":1,\"total_files_processed\":10,\"total_duration\":1.25,\"snapshot_id\":\"abc123\"\x7d\ntrailing") =
      .ok (Json.obj
        [("message_type", Json.str "summary"), ("files_new", Json.num "3"),
         ("files_changed", Json.num "1"),
         ("total_files_processed", Json.num "10"),
         ("total_duration", Json.num "1.25"),
         ("snapshot_id", Json.str "abc123")]) :=
  parseResticSummary_first_summary _
    ["noise", "\x7b\"message_type\":\"status\"\x7d"]
    "\x7b\"message_type\":\"summary\",\"files_new\":3,\"files_changed\":1,\"total_files_processed\":10,\"total_duration\":1.25,\"snapshot_id\":\"abc123\"\x7d"
    ["trailing"] _ (by rfl) (by rfl) (by rfl)

/-- C5 counterexample: the tag string from the claim splits and trims to
a list that still contains the empty string — the code excludes nothing —
so the built arguments carry a "--tag" pair with an empty value, and the
produced tag list is not the ["a", "b", "c"] the claim states. -/
theorem backupArgs_empty_tag_not_excluded_cex :
    (jsSplit ',' "  a, b ,,c ").map jsTrim = ["a", "b", "", "c"] ∧
    (jsSplit ',' "  a, b ,,c ").map jsTrim ≠ ["a", "b", "c"] ∧
    backupArgs
        { enabled := true, resticBinPath := "/opt/homebrew/bin/restic",
          resticRepository := "/tmp/restic-repo", resticPasswordFile := "",
          resticPasswordCommand := "", resticTags := "  a, b ,,c ",
          backupInterval := 3600 }
        "/vault" =
      ["backup", "/vault", "--json", "--skip-if-unchanged",
       "--tag", "a", "--tag", "b", "--tag", "", "--tag", "c"] :=
  ⟨rfl, by decide, rfl⟩

/-- C5 amended: tag construction splits the configured string on commas
and trims each element, preserving order, but keeps empty elements; each
element — the empty ones included — is appended as a "--tag" value pair,
and no tag arguments are appended exactly when the whole tag string is
empty. -/
theorem backupArgs_splits_trims_keeps_empties (s : Settings) (basePath : String) :
    backupArgs s basePath =
      ["backup", basePath, "--json", "--skip-if-unchanged"] ++
        (if s.resticTags = "" then []
         else tagArgs ((jsSplit ',' s.resticTags).map jsTrim)) := by
  by_cases h : s.resticTags = ""
  · simp [backupArgs, h]
  · have hne : jsSplit ',' s.resticTags ≠ [] :=
      List.length_pos.mp (jsSplit_length_pos ',' s.resticTags)
    simp [backupArgs, h, hne]

/-- C6 (code bug): the environment parse records, for the line A=B=C, the
value "B" — JavaScript split with limit 2 keeps only the text up to the
second "=", not everything after the first one — and it records a line
with no "=" at all under its full text with an undefined value instead of
skipping it; a key with an empty value is recorded with the empty
value. -/
theorem parseShellEnv_split_limit_truncates :
    parseShellEnv "A=B=C\nnoequals\nK=" =
      [("A", some "B"), ("noequals", none), ("K", some "")] ∧
    ("B" : String) ≠ "B=C" :=
  ⟨rfl, by decide⟩

/-- C7 counterexample: when environment resolution itself fails, the
failure propagates out of detectRestic — the try block does not wrap the
getShellEnv call — instead of degrading to the absent result. -/
theorem detectRestic_env_failure_propagates_cex :
    detectRestic (.error (.assertError "SHELL environment variable is set"))
        (fun _ => .ok "/opt/homebrew/bin/restic\n") =
      .error (.assertError "SHELL environment variable is set") ∧
    detectRestic (.error (.assertError "SHELL environment variable is set"))
        (fun _ => .ok "/opt/homebrew/bin/restic\n") ≠ .ok none :=
  ⟨rfl, fun h => Except.noConfusion h⟩

/-- C7 amended: detectRestic returns the absent result when the which
lookup fails (its error is caught) and when the lookup succeeds with
empty trimmed output, and returns the trimmed path otherwise; but a
failure of the environment resolution step propagates unchanged. -/
theorem detectRestic_lookup_failure_absent :
    (∀ (env : ShellEnv) (err : JsError),
        detectRestic (.ok env) (fun _ => .error err) = .ok none) ∧
    (∀ (env : ShellEnv) (out : String),
        detectRestic (.ok env) (fun _ => .ok out) =
          .ok (if jsTrim out = "" then none else some (jsTrim out))) ∧
    (∀ (e : JsError) (which : ShellEnv → Except JsError String),
        detectRestic (.error e) which = .error e) := by
  refine ⟨fun env err => rfl, fun env out => ?_, fun e which => rfl⟩
  by_cases h : jsTrim out = "" <;> simp [detectRestic, h]

/-- C8: the built environment always carries the repository variable with
the configured repository; each password variable reads back the
configured value exactly when that setting is non-empty (both at once
when both are set — no exclusivity), and every other variable reads back
exactly as in the ambient environment. -/
theorem buildBackupEnv_overlay (ambient : EnvMap) (s : Settings) (k : String) :
    envGet (buildBackupEnv ambient s) k =
      if k = "RESTIC_REPOSITORY" then some s.resticRepository
      else if k = "RESTIC_PASSWORD_FILE" ∧ s.resticPasswordFile ≠ "" then
        some s.resticPasswordFile
      else if k = "RESTIC_PASSWORD_COMMAND" ∧ s.resticPasswordCommand ≠ "" then
        some s.resticPasswordCommand
      else envGet ambient k := by
  unfold buildBackupEnv envSet
  by_cases hf : s.resticPasswordFile = "" <;>
    by_cases hc : s.resticPasswordCommand = "" <;>
      simp only [hf, hc, ne_eq, not_true_eq_false, not_false_eq_true,
        if_true, if_false, ite_true, ite_false, envGet_append] <;>
      by_cases hk1 : k = "RESTIC_REPOSITORY" <;>
        by_cases hk2 : k = "RESTIC_PASSWORD_FILE" <;>
          by_cases hk3 : k = "RESTIC_PASSWORD_COMMAND" <;>
            simp_all

/-- C9: the summary parser is total with only the two documented
outcomes — a record or the no-summary error — because the loop catches
every per-line failure; a line whose JSON value is null does throw a
TypeError inside the try block (member access on null), and a stream of
null, number and malformed lines still ends in the no-summary error. -/
theorem parseResticSummary_total :
    (∀ stdout : String,
        (∃ m, parseResticSummary stdout = .ok m) ∨
          parseResticSummary stdout = .error .noSummary) ∧
    tryLine "null" =
      .error (.typeError "Cannot read properties of null (reading message_type)") ∧
    parseResticSummary "null\n5\nnot json" = .error .noSummary :=
  ⟨fun _ => scanLines_total _, rfl, rfl⟩

/-- C10: the parser validates nothing about the summary record: a line
parsing to any object whose message_type member is the string "summary"
is returned verbatim, whatever other members it lacks or carries. -/
theorem parseResticSummary_no_field_validation (stdout line : String)
    (kvs : List (String × Json))
    (hsplit : jsSplit '\n' (jsTrim stdout) = [line])
    (hparse : jsonParse line = some (.obj kvs))
    (htag : isSummaryTag (getField kvs "message_type") = true) :
    parseResticSummary stdout = .ok (.obj kvs) := by
  have hline : summaryOfLine line = some (.obj kvs) := by
    unfold summaryOfLine tryLine readMember
    rw [hparse]
    simp [htag]
  unfold parseResticSummary
  rw [hsplit, scanLines_cons_eq, hline]

/-- Witness for C10: an object that lacks every count, duration and
snapshot field the SummaryRecord promises and carries an unrelated extra
member is returned exactly as parsed. -/
theorem parseResticSummary_no_field_validation_witness :
    parseResticSummary "\x7b\"message_type\":\"summary\",\"extra\":[null,true]\x7d" =
      .ok (Json.obj
        [("message_type", Json.str "summary"),
         ("extra", Json.arr [Json.null, Json.bool true])]) :=
  parseResticSummary_no_field_validation _
    "\x7b\"message_type\":\"summary\",\"extra\":[null,true]\x7d"
    [("message_type", Json.str "summary"),
     ("extra", Json.arr [Json.null, Json.bool true])]
    (by rfl) (by rfl) (by rfl)

end ResticBackup
